import Mathlib

/-!
Verification development for the hosting.de DNS-01 challenge provider
(`providers/dns/hostingde/hostingde.go`).

The Go source is shallowly embedded: the request/response structs become
Lean structures, Go's `encoding/json` behaviour on those structs becomes
explicit encode/decode functions over an inductive `Json` value type, and
the networked `doRequest` becomes a pure function of an explicit
`HttpExchange` describing what the transport returned.  Go `nil` slices
are distinguished from empty slices with `Option (List _)`, since
`encoding/json` serializes the former as `null` and the latter as `[]`.
-/

namespace Hostingde

/-- JSON values, the model of what `encoding/json` reads and writes. -/
inductive Json where
  | null : Json
  | bool (b : Bool) : Json
  | num (n : Int) : Json
  | str (s : String) : Json
  | arr (elems : List Json) : Json
  | obj (fields : List (String × Json)) : Json
  deriving Repr

/-- Lowercase hexadecimal digit, as used by `encoding/json` in escapes. -/
def hexDigit (n : Nat) : Char :=
  if n < 10 then Char.ofNat (48 + n) else Char.ofNat (87 + n)

/-- Escape one character the way Go's `encoding/json` does (HTML escaping
of angle brackets and ampersand is on by default). -/
def escapeJsonChar (c : Char) : String :=
  if c = '"' then "\\\""
  else if c = '\\' then "\\\\"
  else if c = '\n' then "\\n"
  else if c = '\r' then "\\r"
  else if c = '\t' then "\\t"
  else if c = '<' then "\\u003c"
  else if c = '>' then "\\u003e"
  else if c = '&' then "\\u0026"
  else if c.toNat < 32 then
    "\\u00" ++ String.singleton (hexDigit (c.toNat / 16)) ++
      String.singleton (hexDigit (c.toNat % 16))
  else String.singleton c

/-- A JSON string literal as emitted by `encoding/json`. -/
def encodeJsonString (s : String) : String :=
  "\"" ++ String.join (s.toList.map escapeJsonChar) ++ "\""

mutual

/-- Compact serialization of a JSON value, byte-for-byte what
`json.Marshal` produces on the embedded structs. -/
def Json.render : Json → String
  | .null => "null"
  | .bool true => "true"
  | .bool false => "false"
  | .num n => toString n
  | .str s => encodeJsonString s
  | .arr elems => "[" ++ Json.renderElems elems ++ "]"
  | .obj fields => "\x7b" ++ Json.renderFields fields ++ "\x7d"

/-- Comma-separated rendering of array elements. -/
def Json.renderElems : List Json → String
  | [] => ""
  | [x] => Json.render x
  | x :: xs => Json.render x ++ "," ++ Json.renderElems xs

/-- Comma-separated rendering of object members. -/
def Json.renderFields : List (String × Json) → String
  | [] => ""
  | [(k, v)] => encodeJsonString k ++ ":" ++ Json.render v
  | (k, v) :: fs => encodeJsonString k ++ ":" ++ Json.render v ++ "," ++ Json.renderFields fs

end

/-- Look a key up in a JSON object; `none` for a missing key or a
non-object value. -/
def Json.lookupKey : Json → String → Option Json
  | .obj fields, k => fields.lookup k
  | _, _ => none

/-! ## Data model: the Go structs of `hostingde.go` -/

/-- `RecordsAddRequest` (hostingde.go lines 30-35): one record to add. -/
structure RecordsAddRequest where
  name : String
  type : String
  content : String
  ttl : Int
  deriving Repr, DecidableEq

/-- `RecordsDeleteRequest` (hostingde.go lines 37-41): one record to
delete.  It has no TTL field. -/
structure RecordsDeleteRequest where
  name : String
  type : String
  content : String
  deriving Repr, DecidableEq

/-- The anonymous `SOAValues` struct nested in `ZoneConfigObject`
(hostingde.go lines 51-58). -/
structure SOAValues where
  expire : String
  negativeTtl : Int
  refresh : Int
  retry : Int
  serial : String
  ttl : Int
  deriving Repr, DecidableEq

/-- `ZoneConfigObject` (hostingde.go lines 43-63). -/
structure ZoneConfigObject where
  accountId : String
  emailAddress : String
  id : String
  lastChangeDate : String
  masterIp : String
  name : String
  nameUnicode : String
  soaValues : SOAValues
  status : String
  templateValues : String
  type : String
  zoneTransferWhitelist : List String
  deriving Repr, DecidableEq

/-- The anonymous record struct in `ZoneUpdateResponse.Response.Records`
(hostingde.go lines 71-80).  Note: it has `content`, `type`, `id`,
`lastChangeDate`, `priority`, `recordTemplateId`, `zoneConfigId` and
`ttl` fields, but no `name` field. -/
structure ZoneUpdateResponseRecord where
  content : String
  type : String
  id : String
  lastChangeDate : String
  priority : String
  recordTemplateId : String
  zoneConfigId : String
  ttl : Int
  deriving Repr, DecidableEq

/-- The anonymous `Response` struct in `ZoneUpdateResponse`
(hostingde.go lines 70-82). -/
structure ZoneUpdateResponseBody where
  records : List ZoneUpdateResponseRecord
  zoneConfig : ZoneConfigObject
  deriving Repr, DecidableEq

/-- `ZoneUpdateResponse` (hostingde.go lines 65-83).  The `interface`
fields `errors`, `metadata` and `warnings` hold arbitrary JSON. -/
structure ZoneUpdateResponse where
  errors : Json
  metadata : Json
  warnings : Json
  status : String
  response : ZoneUpdateResponseBody

/-- `ZoneConfigSelector` (hostingde.go lines 85-87). -/
structure ZoneConfigSelector where
  name : String
  deriving Repr, DecidableEq

/-- `ZoneUpdateRequest` (hostingde.go lines 89-94), the outbound update
envelope.  The two record slices are `Option (List _)` because Go
distinguishes a `nil` slice (marshalled `null`) from an empty one
(marshalled `[]`). -/
structure ZoneUpdateRequest where
  authToken : String
  zoneConfig : ZoneConfigSelector
  recordsToAdd : Option (List RecordsAddRequest)
  recordsToDelete : Option (List RecordsDeleteRequest)
  deriving Repr, DecidableEq

/-- `DNSProvider` (hostingde.go lines 24-28).  The embedded `http.Client`
is represented by its only configured datum, the timeout in seconds. -/
structure DNSProvider where
  authKey : String
  zoneName : String
  clientTimeoutSeconds : Nat
  deriving Repr, DecidableEq

/-! ## Marshalling: `json.Marshal` on the request structs -/

/-- `json.Marshal` on `RecordsAddRequest`: keys in struct-field order. -/
def RecordsAddRequest.toJson (r : RecordsAddRequest) : Json :=
  .obj [("name", .str r.name), ("type", .str r.type),
        ("content", .str r.content), ("ttl", .num r.ttl)]

/-- `json.Marshal` on `RecordsDeleteRequest`: keys in struct-field order,
no `ttl` key. -/
def RecordsDeleteRequest.toJson (r : RecordsDeleteRequest) : Json :=
  .obj [("name", .str r.name), ("type", .str r.type),
        ("content", .str r.content)]

/-- A Go slice marshals to `null` when `nil` and to a JSON array
otherwise. -/
def marshalSlice {α : Type} (enc : α → Json) : Option (List α) → Json
  | none => .null
  | some xs => .arr (xs.map enc)

/-- `json.Marshal` on `ZoneUpdateRequest`.  The embedded
`ZoneConfigSelector` carries the tag `json:"zoneConfig"`, so it is
serialized as a nested object under that key; the record slices carry no
`omitempty`, so both keys always appear. -/
def ZoneUpdateRequest.toJson (r : ZoneUpdateRequest) : Json :=
  .obj [("authToken", .str r.authToken),
        ("zoneConfig", .obj [("name", .str r.zoneConfig.name)]),
        ("recordsToAdd", marshalSlice RecordsAddRequest.toJson r.recordsToAdd),
        ("recordsToDelete", marshalSlice RecordsDeleteRequest.toJson r.recordsToDelete)]

/-! ## Unmarshalling: `json.Decode` into the response structs

Go's decoder leaves a field at its zero value when the key is absent or
its value is JSON `null`, fills it on a matching type, and errors (here:
`none`) on a type mismatch.  Keys with no matching field are ignored. -/

/-- Decode a `string` struct field from an object `j`. -/
def decodeStringField (j : Json) (key : String) : Option String :=
  match j.lookupKey key with
  | none => some ""
  | some .null => some ""
  | some (.str s) => some s
  | some _ => none

/-- Decode an `int` struct field from an object `j`. -/
def decodeIntField (j : Json) (key : String) : Option Int :=
  match j.lookupKey key with
  | none => some 0
  | some .null => some 0
  | some (.num n) => some n
  | some _ => none

/-- Decode an `interface` struct field from an object `j`: any JSON value
is accepted; the zero value (Go `nil`) is modelled as `Json.null`. -/
def decodeAnyField (j : Json) (key : String) : Json :=
  match j.lookupKey key with
  | none => .null
  | some v => v

/-- Decode a `[]string` struct field from an object `j`. -/
def decodeStringListField (j : Json) (key : String) : Option (List String) :=
  match j.lookupKey key with
  | none => some []
  | some .null => some []
  | some (.arr elems) =>
      elems.mapM fun e =>
        match e with
        | .str s => some s
        | _ => none
  | some _ => none

/-- Decode the nested `SOAValues` struct. -/
def decodeSOAValues : Json → Option SOAValues
  | .null => some ⟨"", 0, 0, 0, "", 0⟩
  | j@(.obj _) => do
      let expire ← decodeStringField j "expire"
      let negativeTtl ← decodeIntField j "negativeTtl"
      let refresh ← decodeIntField j "refresh"
      let retry ← decodeIntField j "retry"
      let serial ← decodeStringField j "serial"
      let ttl ← decodeIntField j "ttl"
      some ⟨expire, negativeTtl, refresh, retry, serial, ttl⟩
  | _ => none

/-- The zero value of `ZoneConfigObject`. -/
def ZoneConfigObject.zero : ZoneConfigObject :=
  ⟨"", "", "", "", "", "", "", ⟨"", 0, 0, 0, "", 0⟩, "", "", "", []⟩

/-- Decode `ZoneConfigObject`. -/
def decodeZoneConfigObject : Json → Option ZoneConfigObject
  | .null => some ZoneConfigObject.zero
  | j@(.obj _) => do
      let accountId ← decodeStringField j "accountId"
      let emailAddress ← decodeStringField j "emailAddress"
      let id ← decodeStringField j "id"
      let lastChangeDate ← decodeStringField j "lastChangeDate"
      let masterIp ← decodeStringField j "masterIp"
      let name ← decodeStringField j "name"
      let nameUnicode ← decodeStringField j "nameUnicode"
      let soaValues ←
        match j.lookupKey "soaValues" with
        | none => some (⟨"", 0, 0, 0, "", 0⟩ : SOAValues)
        | some v => decodeSOAValues v
      let status ← decodeStringField j "status"
      let templateValues ← decodeStringField j "templateValues"
      let type ← decodeStringField j "type"
      let zoneTransferWhitelist ← decodeStringListField j "zoneTransferWhitelist"
      some ⟨accountId, emailAddress, id, lastChangeDate, masterIp, name,
            nameUnicode, soaValues, status, templateValues, type,
            zoneTransferWhitelist⟩
  | _ => none

/-- The zero value of `ZoneUpdateResponseRecord`. -/
def ZoneUpdateResponseRecord.zero : ZoneUpdateResponseRecord :=
  ⟨"", "", "", "", "", "", "", 0⟩

/-- Decode one entry of the response `records` list.  The struct has no
`name` field, so a `name` key in the JSON is ignored. -/
def decodeZoneUpdateResponseRecord : Json → Option ZoneUpdateResponseRecord
  | .null => some ZoneUpdateResponseRecord.zero
  | j@(.obj _) => do
      let content ← decodeStringField j "content"
      let type ← decodeStringField j "type"
      let id ← decodeStringField j "id"
      let lastChangeDate ← decodeStringField j "lastChangeDate"
      let priority ← decodeStringField j "priority"
      let recordTemplateId ← decodeStringField j "recordTemplateId"
      let zoneConfigId ← decodeStringField j "zoneConfigId"
      let ttl ← decodeIntField j "ttl"
      some ⟨content, type, id, lastChangeDate, priority, recordTemplateId,
            zoneConfigId, ttl⟩
  | _ => none

/-- The zero value of `ZoneUpdateResponseBody`. -/
def ZoneUpdateResponseBody.zero : ZoneUpdateResponseBody :=
  ⟨[], ZoneConfigObject.zero⟩

/-- Decode the `response` member of `ZoneUpdateResponse`. -/
def decodeZoneUpdateResponseBody : Json → Option ZoneUpdateResponseBody
  | .null => some ZoneUpdateResponseBody.zero
  | j@(.obj _) => do
      let records ←
        match j.lookupKey "records" with
        | none => some []
        | some .null => some []
        | some (.arr elems) => elems.mapM decodeZoneUpdateResponseRecord
        | some _ => none
      let zoneConfig ←
        match j.lookupKey "zoneConfig" with
        | none => some ZoneConfigObject.zero
        | some v => decodeZoneConfigObject v
      some ⟨records, zoneConfig⟩
  | _ => none

/-- The zero value of `ZoneUpdateResponse`, the `var r ZoneUpdateResponse`
of `doRequest`. -/
def ZoneUpdateResponse.zero : ZoneUpdateResponse :=
  ⟨.null, .null, .null, "", ZoneUpdateResponseBody.zero⟩

/-- `json.Decode` of the response body into `ZoneUpdateResponse`.  The
`errors` / `metadata` / `warnings` interface fields accept any JSON. -/
def decodeZoneUpdateResponse : Json → Option ZoneUpdateResponse
  | .null => some ZoneUpdateResponse.zero
  | j@(.obj _) => do
      let status ← decodeStringField j "status"
      let response ←
        match j.lookupKey "response" with
        | none => some ZoneUpdateResponseBody.zero
        | some v => decodeZoneUpdateResponseBody v
      some ⟨decodeAnyField j "errors", decodeAnyField j "metadata",
            decodeAnyField j "warnings", status, response⟩
  | _ => none

/-! ## Errors, transport model and `doRequest` -/

/-- `HostingdeAPIURL` (hostingde.go line 21). -/
def HostingdeAPIURL : String := "https://secure.hosting.de/api/dns/v1/json"

/-- The error taxonomy of the provider, one constructor per `return`-with-
error site of the source.  `apiError` keeps the two values interpolated
into its `fmt.Errorf` format string. -/
inductive ProviderError where
  | configError : ProviderError
  | transportError (cause : String) : ProviderError
  | decodeError (cause : String) : ProviderError
  | apiError (url : String) (body : String) : ProviderError
  deriving Repr, DecidableEq

/-- The error message each constructor renders, from the literal format
strings of the source. -/
def ProviderError.message : ProviderError → String
  | .configError => "Hostingde: API key or Zone Name missing"
  | .transportError cause => "error querying Hostingde API -> " ++ cause
  | .decodeError cause => cause
  | .apiError url body =>
      "Hostingde API error: the request " ++ url ++
        " sent the following response: " ++ body

/-- The HTTP request built by `http.NewRequest` inside `doRequest`. -/
structure HttpRequest where
  method : String
  url : String
  body : String
  deriving Repr, DecidableEq

/-- What the transport handed back for one response, abstracting the byte
stream: the result of JSON-decoding the body (`none` when the body is not
decodable), whether the decoder happened to consume the stream to EOF
(an implementation-dependent fact of the decoder's buffering), and what a
subsequent `ioutil.ReadAll` of the remaining body yields (`none` when the
re-read itself fails). -/
structure HttpResponse where
  bodyJson : Option Json
  decodeReadToEOF : Bool
  bodyRest : Option String

/-- One `client.Do` exchange: either a transport-level failure or a
response. -/
inductive HttpExchange where
  | transportFailure (cause : String) : HttpExchange
  | response (resp : HttpResponse) : HttpExchange

/-- What happened to the response body on the exit path taken:
whether the stream was read to EOF, and whether it was closed. -/
structure BodyOps where
  drained : Bool
  closed : Bool
  deriving Repr, DecidableEq

/-- The observable outcome of one `doRequest` call: the request it built,
the `(ZoneUpdateResponse, error)` it returned (as an `Except`), and the
body bookkeeping (`none` when no response was received). -/
structure DoRequestOutcome where
  request : HttpRequest
  result : Except ProviderError ZoneUpdateResponse
  bodyOps : Option BodyOps

/-- `doRequest` (hostingde.go lines 197-225) as a function of the
exchange the transport performs.  The URL is
`fmt.Sprintf("%s%s", HostingdeAPIURL, uri)`; a transport error maps to
the wrapping `fmt.Errorf`; a decode error is returned as-is; a decoded
status other than `"success"` re-reads the rest of the body (placeholder
`"Unreadable body"` when that fails) and returns the `apiError`.  The
deferred `resp.Body.Close()` runs on every exit path that received a
response; only the `ReadAll` of the non-success path reads the stream to
EOF, and only when it succeeds. -/
def doRequest (method uri payload : String) (exchange : HttpExchange) :
    DoRequestOutcome :=
  let req : HttpRequest := ⟨method, HostingdeAPIURL ++ uri, payload⟩
  match exchange with
  | .transportFailure cause =>
      ⟨req, .error (.transportError cause), none⟩
  | .response resp =>
      match resp.bodyJson.bind decodeZoneUpdateResponse with
      | none =>
          ⟨req, .error (.decodeError "invalid JSON response body"),
           some ⟨resp.decodeReadToEOF, true⟩⟩
      | some r =>
          if r.status = "success" then
            ⟨req, .ok r, some ⟨resp.decodeReadToEOF, true⟩⟩
          else
            let strBody :=
              match resp.bodyRest with
              | some s => s
              | none => "Unreadable body"
            ⟨req, .error (.apiError req.url strBody),
             some ⟨resp.bodyRest.isSome, true⟩⟩

/-! ## Construction -/

/-- The outcome of running the constructor: its return value together
with the list of HTTP requests it issued.  The body of
`NewDNSProviderCredentials` contains no network operation, so that list
is always empty. -/
structure ConstructionOutcome where
  result : Except ProviderError DNSProvider
  requestsIssued : List HttpRequest

/-- `NewDNSProviderCredentials` (hostingde.go lines 110-122): rejects an
empty key or zone name, otherwise builds the provider with a 30-second
HTTP client timeout. -/
def NewDNSProviderCredentials (key zoneName : String) : ConstructionOutcome :=
  if key = "" ∨ zoneName = "" then
    ⟨.error .configError, []⟩
  else
    ⟨.ok ⟨key, zoneName, 30⟩, []⟩

/-! ## Present and CleanUp -/

/-- Modelled from the spec: `acme.UnFqdn`, the external helper Present
and CleanUp apply to the fully-qualified record name, is not under the
sources in scope; the spec describes it as producing "a name with any
trailing `.` stripped". -/
def UnFqdn (name : String) : String :=
  if name.endsWith "." then name.dropRight 1 else name

/-- The `ZoneUpdateRequest` value `Present` (hostingde.go lines 134-150)
builds from the derived challenge record data: one TXT add-record with
the un-FQDN-ed name, the value as content and the TTL, and a literal
empty (non-nil) delete slice. -/
def presentRequest (d : DNSProvider) (fqdn value : String) (ttl : Int) :
    ZoneUpdateRequest :=
  { authToken := d.authKey
    zoneConfig := ⟨d.zoneName⟩
    recordsToAdd := some [{ name := UnFqdn fqdn, type := "TXT",
                            content := value, ttl := ttl }]
    recordsToDelete := some [] }

/-- The serialized request body `Present` posts: `json.Marshal` of
`presentRequest`. -/
def presentBody (d : DNSProvider) (fqdn value : String) (ttl : Int) : String :=
  (presentRequest d fqdn value ttl).toJson.render

/-- `Present` (hostingde.go lines 131-162) after the challenge data has
been derived: marshal the envelope and post it to `/zoneUpdate`. -/
def Present (d : DNSProvider) (fqdn value : String) (ttl : Int)
    (exchange : HttpExchange) : DoRequestOutcome :=
  doRequest "POST" "/zoneUpdate" (presentBody d fqdn value ttl) exchange

/-- The `ZoneUpdateRequest` value `CleanUp` (hostingde.go lines 168-183)
builds: a literal empty (non-nil) add slice and one TXT delete-record
with the un-FQDN-ed name and the value as content. -/
def cleanUpRequest (d : DNSProvider) (fqdn value : String) :
    ZoneUpdateRequest :=
  { authToken := d.authKey
    zoneConfig := ⟨d.zoneName⟩
    recordsToAdd := some []
    recordsToDelete := some [{ name := UnFqdn fqdn, type := "TXT",
                               content := value }] }

/-- The serialized request body `CleanUp` posts. -/
def cleanUpBody (d : DNSProvider) (fqdn value : String) : String :=
  (cleanUpRequest d fqdn value).toJson.render

/-- `CleanUp` (hostingde.go lines 165-195) after the challenge data has
been derived: marshal the envelope and post it to `/zoneUpdate`. -/
def CleanUp (d : DNSProvider) (fqdn value : String)
    (exchange : HttpExchange) : DoRequestOutcome :=
  doRequest "POST" "/zoneUpdate" (cleanUpBody d fqdn value) exchange

/-- The error `Present` / `CleanUp` return to the caller. -/
def DoRequestOutcome.callerError (o : DoRequestOutcome) :
    Option ProviderError :=
  match o.result with
  | .ok _ => none
  | .error e => some e

/-! ## Shared helper lemmas -/

/-- The request `doRequest` builds is determined by its arguments alone,
on every exchange outcome. -/
theorem doRequest_request_eq (method uri payload : String)
    (exchange : HttpExchange) :
    (doRequest method uri payload exchange).request =
      ⟨method, HostingdeAPIURL ++ uri, payload⟩ := by
  unfold doRequest
  cases exchange with
  | transportFailure cause => rfl
  | response resp =>
      dsimp only
      cases resp.bodyJson.bind decodeZoneUpdateResponse with
      | none => rfl
      | some r =>
          dsimp only
          split <;> rfl

/-! ## Claims -/

/-- C1: for every zone name, auth token, record name, record value and
TTL, `Present` builds a `ZoneUpdateRequest` whose `recordsToAdd` holds
exactly one entry of type `"TXT"` with the given content and TTL and the
record name with any trailing dot stripped, and whose `recordsToDelete`
is empty. -/
theorem present_builds_single_txt_add (d : DNSProvider)
    (fqdn value : String) (ttl : Int) :
    (presentRequest d fqdn value ttl).recordsToAdd =
      some [{ name := if fqdn.endsWith "." then fqdn.dropRight 1 else fqdn,
              type := "TXT", content := value, ttl := ttl }] ∧
    (presentRequest d fqdn value ttl).recordsToDelete = some [] ∧
    (presentRequest d fqdn value ttl).authToken = d.authKey ∧
    (presentRequest d fqdn value ttl).zoneConfig.name = d.zoneName :=
  ⟨rfl, rfl, rfl, rfl⟩

/-- C2: for every zone name, auth token, record name and record value,
`CleanUp` builds a `ZoneUpdateRequest` whose `recordsToDelete` holds
exactly one `"TXT"` entry with the given content and the record name with
any trailing dot stripped (and, structurally, no TTL field), and whose
`recordsToAdd` is empty. -/
theorem cleanup_builds_single_txt_delete (d : DNSProvider)
    (fqdn value : String) :
    (cleanUpRequest d fqdn value).recordsToDelete =
      some [{ name := if fqdn.endsWith "." then fqdn.dropRight 1 else fqdn,
              type := "TXT", content := value }] ∧
    (cleanUpRequest d fqdn value).recordsToAdd = some [] ∧
    (cleanUpRequest d fqdn value).authToken = d.authKey ∧
    (cleanUpRequest d fqdn value).zoneConfig.name = d.zoneName :=
  ⟨rfl, rfl, rfl, rfl⟩

/-- C3: whenever the response body decodes to a `ZoneUpdateResponse`
whose `status` is not exactly `"success"`, `doRequest` fails with the
`apiError` that carries the request URL and what re-reading the body
yielded (the placeholder `"Unreadable body"` when the re-read failed),
and its rendered message interpolates both. -/
theorem non_success_returns_api_error (method uri payload : String)
    (resp : HttpResponse) (r : ZoneUpdateResponse)
    (hdec : resp.bodyJson.bind decodeZoneUpdateResponse = some r)
    (hst : r.status ≠ "success") :
    (doRequest method uri payload (.response resp)).result =
      .error (.apiError (HostingdeAPIURL ++ uri)
        (resp.bodyRest.getD "Unreadable body")) ∧
    (ProviderError.apiError (HostingdeAPIURL ++ uri)
        (resp.bodyRest.getD "Unreadable body")).message =
      "Hostingde API error: the request " ++ (HostingdeAPIURL ++ uri) ++
        " sent the following response: " ++
        resp.bodyRest.getD "Unreadable body" := by
  constructor
  · unfold doRequest
    dsimp only
    rw [hdec]
    dsimp only
    rw [if_neg hst]
    cases resp.bodyRest <;> rfl
  · rfl

/-- C3 witness: a concrete non-success body whose re-read fails, so the
placeholder is substituted. -/
theorem non_success_returns_api_error_witness :
    (doRequest "POST" "/zoneUpdate" "p"
        (.response ⟨some (.obj [("status", .str "error")]), true, none⟩)).result =
      .error (.apiError (HostingdeAPIURL ++ "/zoneUpdate") "Unreadable body") :=
  (non_success_returns_api_error "POST" "/zoneUpdate" "p"
    ⟨some (.obj [("status", .str "error")]), true, none⟩
    ⟨.null, .null, .null, "error", ZoneUpdateResponseBody.zero⟩
    rfl (by decide)).1

/-- C4: whenever the response body decodes to a `ZoneUpdateResponse`
whose `status` is exactly `"success"`, `Present` and `CleanUp` return no
error to the caller. -/
theorem success_status_no_error (d : DNSProvider) (fqdn value : String)
    (ttl : Int) (resp : HttpResponse) (r : ZoneUpdateResponse)
    (hdec : resp.bodyJson.bind decodeZoneUpdateResponse = some r)
    (hst : r.status = "success") :
    (Present d fqdn value ttl (.response resp)).callerError = none ∧
    (CleanUp d fqdn value (.response resp)).callerError = none := by
  constructor
  · unfold Present doRequest
    dsimp only
    rw [hdec]
    dsimp only
    rw [if_pos hst]
    rfl
  · unfold CleanUp doRequest
    dsimp only
    rw [hdec]
    dsimp only
    rw [if_pos hst]
    rfl

/-- C4 witness: a concrete decodable success body. -/
theorem success_status_no_error_witness :
    (Present ⟨"key", "zone", 30⟩ "rec.example.org." "val" 120
        (.response ⟨some (.obj [("status", .str "success")]), true,
          some ""⟩)).callerError = none ∧
    (CleanUp ⟨"key", "zone", 30⟩ "rec.example.org." "val"
        (.response ⟨some (.obj [("status", .str "success")]), true,
          some ""⟩)).callerError = none :=
  success_status_no_error ⟨"key", "zone", 30⟩ "rec.example.org." "val" 120
    ⟨some (.obj [("status", .str "success")]), true, some ""⟩
    ⟨.null, .null, .null, "success", ZoneUpdateResponseBody.zero⟩
    rfl rfl

/-- C5: `NewDNSProviderCredentials` issues no network request; with an
empty key or empty zone name it returns the configuration error, and
otherwise it returns a provider holding exactly the supplied key and
zone name (with the fixed 30-second client timeout). -/
theorem credentials_validation (key zoneName : String) :
    (NewDNSProviderCredentials key zoneName).requestsIssued = [] ∧
    ((key = "" ∨ zoneName = "") →
      (NewDNSProviderCredentials key zoneName).result = .error .configError) ∧
    (key ≠ "" → zoneName ≠ "" →
      (NewDNSProviderCredentials key zoneName).result =
        .ok ⟨key, zoneName, 30⟩) := by
  refine ⟨?_, ?_, ?_⟩
  · unfold NewDNSProviderCredentials
    split <;> rfl
  · intro h
    unfold NewDNSProviderCredentials
    rw [if_pos h]
  · intro hk hz
    unfold NewDNSProviderCredentials
    rw [if_neg (by simp [hk, hz])]

/-- C5 witness: the empty-key case errors and a concrete non-empty pair
constructs the provider. -/
theorem credentials_validation_witness :
    (NewDNSProviderCredentials "" "zone").result = .error .configError ∧
    (NewDNSProviderCredentials "key" "zone").result =
      .ok ⟨"key", "zone", 30⟩ :=
  ⟨(credentials_validation "" "zone").2.1 (Or.inl rfl),
   (credentials_validation "key" "zone").2.2 (by decide) (by decide)⟩

/-- C6 counterexample: the response record struct has no `name` field,
so decoding the provider's echo of a `RecordsAddRequest` discards the
name — two add-records that differ only in their name decode to the very
same echo record, so no decoding can preserve the name. -/
theorem echo_roundtrip_drops_name :
    decodeZoneUpdateResponseRecord
        (RecordsAddRequest.toJson
          ⟨"alpha.example.org", "TXT", "value", 120⟩) =
      decodeZoneUpdateResponseRecord
        (RecordsAddRequest.toJson
          ⟨"beta.example.org", "TXT", "value", 120⟩) ∧
    ("alpha.example.org" : String) ≠ "beta.example.org" :=
  ⟨rfl, by decide⟩

/-- C6 (amended): decoding the provider's echo of an encoded
`RecordsAddRequest` preserves its content (and type and TTL); the name
is dropped because the response record struct has no `name` field, and
every field without a matching key decodes to its zero value. -/
theorem echo_roundtrip_preserves_content (m : RecordsAddRequest) :
    decodeZoneUpdateResponseRecord m.toJson =
      some ⟨m.content, m.type, "", "", "", "", "", m.ttl⟩ :=
  rfl

/-- C7: every request issued by `Present` and by `CleanUp`, whatever the
exchange outcome, uses method `POST` and the URL formed by appending
`/zoneUpdate` to `HostingdeAPIURL`, which is the fixed endpoint
`https://secure.hosting.de/api/dns/v1/json/zoneUpdate`. -/
theorem requests_use_post_zone_update (d : DNSProvider)
    (fqdn value : String) (ttl : Int) (exchange : HttpExchange) :
    (Present d fqdn value ttl exchange).request =
      ⟨"POST", HostingdeAPIURL ++ "/zoneUpdate",
        presentBody d fqdn value ttl⟩ ∧
    (CleanUp d fqdn value exchange).request =
      ⟨"POST", HostingdeAPIURL ++ "/zoneUpdate", cleanUpBody d fqdn value⟩ ∧
    HostingdeAPIURL ++ "/zoneUpdate" =
      "https://secure.hosting.de/api/dns/v1/json/zoneUpdate" :=
  ⟨doRequest_request_eq "POST" "/zoneUpdate"
      (presentBody d fqdn value ttl) exchange,
   doRequest_request_eq "POST" "/zoneUpdate" (cleanUpBody d fqdn value)
      exchange,
   rfl⟩

/-- C8 counterexample: on the success path `doRequest` closes the body
without any explicit drain, so when the decoder did not happen to consume
the stream the body is left undrained (`drained = false`); only `Close`
is guaranteed. -/
theorem success_path_body_not_drained :
    (doRequest "POST" "/zoneUpdate" ""
        (.response ⟨some (.obj [("status", .str "success")]), false,
          some ""⟩)).bodyOps = some ⟨false, true⟩ :=
  rfl

/-- C8 (amended): on every exit path of `doRequest` after a response is
received, the response body is closed (by the deferred `Close`); it is
not necessarily fully drained — only the non-success-status path reads
the remainder of the body, via `ReadAll`. -/
theorem body_closed_on_every_response_path (method uri payload : String)
    (resp : HttpResponse) (ops : BodyOps)
    (h : (doRequest method uri payload (.response resp)).bodyOps = some ops) :
    ops.closed = true := by
  unfold doRequest at h
  dsimp only at h
  rcases hdec : resp.bodyJson.bind decodeZoneUpdateResponse with _ | r <;>
    rw [hdec] at h <;> dsimp only at h
  · cases h
    rfl
  · split at h <;> cases h <;> rfl

/-- C8 witness: the amended theorem applied on the concrete success
path. -/
theorem body_closed_on_every_response_path_witness :
    (BodyOps.closed ⟨false, true⟩) = true :=
  body_closed_on_every_response_path "POST" "/zoneUpdate" ""
    ⟨some (.obj [("status", .str "success")]), false, some ""⟩
    ⟨false, true⟩ rfl

/-- C9: the serialized envelope of both `Present` and `CleanUp` always
carries the `recordsToAdd` and the `recordsToDelete` key, and the unused
sequence is the empty JSON array — never `null` (the code builds literal
empty slices, not nil ones) and never omitted (the tags carry no
`omitempty`). -/
theorem serialized_envelope_record_keys (d : DNSProvider)
    (fqdn value : String) (ttl : Int) :
    (presentRequest d fqdn value ttl).toJson.lookupKey "recordsToAdd" =
      some (.arr [RecordsAddRequest.toJson
        ⟨UnFqdn fqdn, "TXT", value, ttl⟩]) ∧
    (presentRequest d fqdn value ttl).toJson.lookupKey "recordsToDelete" =
      some (.arr []) ∧
    (cleanUpRequest d fqdn value).toJson.lookupKey "recordsToAdd" =
      some (.arr []) ∧
    (cleanUpRequest d fqdn value).toJson.lookupKey "recordsToDelete" =
      some (.arr [RecordsDeleteRequest.toJson ⟨UnFqdn fqdn, "TXT", value⟩]) :=
  ⟨rfl, rfl, rfl, rfl⟩

/-- C10: request-body construction is deterministic — two clients built
from the same token and zone name produce byte-for-byte identical
serialized bodies for identical `Present` (resp. `CleanUp`) arguments. -/
theorem request_bodies_deterministic (dOne dTwo : DNSProvider)
    (fqdn value : String) (ttl : Int)
    (hk : dOne.authKey = dTwo.authKey)
    (hz : dOne.zoneName = dTwo.zoneName) :
    presentBody dOne fqdn value ttl = presentBody dTwo fqdn value ttl ∧
    cleanUpBody dOne fqdn value = cleanUpBody dTwo fqdn value := by
  unfold presentBody cleanUpBody presentRequest cleanUpRequest
  rw [hk, hz]
  exact ⟨rfl, rfl⟩

/-- C10 witness: two distinct client values (they differ in the modelled
client timeout) with equal credentials produce identical bodies. -/
theorem request_bodies_deterministic_witness :
    presentBody ⟨"key", "zone", 30⟩ "rec.example.org." "val" 120 =
      presentBody ⟨"key", "zone", 31⟩ "rec.example.org." "val" 120 ∧
    cleanUpBody ⟨"key", "zone", 30⟩ "rec.example.org." "val" =
      cleanUpBody ⟨"key", "zone", 31⟩ "rec.example.org." "val" :=
  request_bodies_deterministic ⟨"key", "zone", 30⟩ ⟨"key", "zone", 31⟩
    "rec.example.org." "val" 120 rfl rfl

end Hostingde
